import Mathlib

/-!
Shallow embedding of the `waveshare-epd-rs` repository (crates
`waveshare_epd_core` and `waveshare_epd`, driver `epd5in79`).

Conventions of the embedding:
* Rust `u8` bytes are `Nat`; the bit operations used by the source
  (`|`, `&`, `!` on `u8`, `1 << offset`) are translated as `|||`, `&&&`,
  `255 ^^^ ·` (the `u8` complement of a single-bit mask, valid because every
  offset produced by the driver is `< 8`) and `1 <<< offset`.
* The four 13600-byte planes are total functions `Nat → Nat` (index → byte);
  the driver only ever accesses indices `50*y + x/8 ≤ 13599`, so the Rust
  panicking bounds checks are never hit on the executed domain.
* `i32` point coordinates are `Int`.  Every arithmetic use of a coordinate in
  the source happens under the `is_point_in_screen` guard, where coordinates
  are nonnegative, so the index arithmetic is carried out on `Nat` via
  `Int.toNat`, which agrees with the Rust `i32` arithmetic there.
* `Instant` timestamps are `Nat` clock values; functions that call
  `Instant::now()` take the current clock `now : Nat` as an argument, and
  `Duration`s are `Nat`s.
* Hardware interaction (`SpiInterface`) is modelled as a trace of `Event`s;
  the bus and pins always succeed and the busy line always clears for the
  panel-level operations (the happy-path hardware model), so the only failure
  the panel driver itself can produce is the deep-sleep guard error.
  The busy-polling primitive `wait_busy_timeout` is modelled separately with
  an abstract busy line `busyAt : Nat → Bool` (elapsed time → busy level).
-/

/-- `embedded_graphics_core::pixelcolor::BinaryColor`. -/
inductive BinaryColor where
  | Off
  | On
deriving DecidableEq, Repr

/-- `BinaryColor::is_on`. -/
def BinaryColor.is_on : BinaryColor → Bool
  | .On => true
  | .Off => false

/-- `embedded_graphics_core::pixelcolor::Gray2`: a 2-bit luma (0..3). -/
structure Gray2 where
  luma : Fin 4
deriving DecidableEq, Repr

/-- `Gray2::new` (masks the value to 2 bits, `& 0x3` = `% 4`). -/
def Gray2.new (l : Nat) : Gray2 := ⟨⟨l % 4, Nat.mod_lt _ (by omega)⟩⟩

/-- `Gray2::WHITE` (luma 3). -/
def Gray2.WHITE : Gray2 := Gray2.new 3

/-- `Gray2::BLACK` (luma 0). -/
def Gray2.BLACK : Gray2 := Gray2.new 0

/-- `embedded_graphics_core::geometry::Point` with `i32` coordinates. -/
structure Point where
  x : Int
  y : Int
deriving DecidableEq, Repr

/-- `epd5in79::is_point_in_screen`. -/
def is_point_in_screen (point : Point) : Bool :=
  decide (0 ≤ point.x) && decide (point.x < 792) &&
    decide (0 ≤ point.y) && decide (point.y < 272)

/-- Single-byte store into a plane (the effect of `buf.get_mut(i)` /
`buf[i] = v` at index `i`). -/
def updByte (buf : Nat → Nat) (i v : Nat) : Nat → Nat :=
  fun j => if j = i then v else buf j

/-- `epd5in79::set_binary_value`: set or clear bit `offset` of `value`
(`*value |= 1 << offset` / `*value &= !(1 << offset)` on `u8`). -/
def set_binary_value (color : BinaryColor) (offset value : Nat) : Nat :=
  if color.is_on then
    value ||| (1 <<< offset)
  else
    value &&& (255 ^^^ (1 <<< offset))

/-- `epd5in79::get_binary_from_value`: `value & 1 << offset != 0`. -/
def get_binary_from_value (offset value : Nat) : BinaryColor :=
  if value &&& (1 <<< offset) != 0 then BinaryColor.On else BinaryColor.Off

/-- `epd5in79::set_gray_value`: writes the two bits of the 2-bit luma into the
(`bw_value`, `r_value`) byte pair at `offset`; returns the updated pair. -/
def set_gray_value (color : Gray2) (offset bw_value r_value : Nat) : Nat × Nat :=
  match color.luma with
  | ⟨0, _⟩ => (bw_value &&& (255 ^^^ (1 <<< offset)), r_value &&& (255 ^^^ (1 <<< offset)))
  | ⟨1, _⟩ => (bw_value ||| (1 <<< offset), r_value &&& (255 ^^^ (1 <<< offset)))
  | ⟨2, _⟩ => (bw_value &&& (255 ^^^ (1 <<< offset)), r_value ||| (1 <<< offset))
  | ⟨3, _⟩ => (bw_value ||| (1 <<< offset), r_value ||| (1 <<< offset))
  | ⟨n + 4, h⟩ => absurd h (by omega)

/-- `epd5in79::get_gray_from_values`: decodes the (`bw_value`, `r_value`) bit
pair at `offset` into a `Gray2`. -/
def get_gray_from_values (offset bw_value r_value : Nat) : Gray2 :=
  match bw_value &&& (1 <<< offset) != 0, r_value &&& (1 <<< offset) != 0 with
  | true, true => Gray2.WHITE
  | false, true => Gray2.new 2
  | true, false => Gray2.new 1
  | false, false => Gray2.BLACK

/-- `epd5in79::ColorInBuf`. -/
inductive ColorInBuf where
  | Binary
  | Gray
deriving DecidableEq, Repr

/-- `epd5in79::DisplayMode`.  The source constructor `Partial` is named
`Part` here and `Gray2` is named `Gray2M` (to avoid clashing with the color
type). -/
inductive DisplayMode where
  | Full
  | Fast
  | Part
  | Gray2M
deriving DecidableEq, Repr

/-- `epd5in79::Epd5in79State`.  `power_on` holds the `Instant` (clock value)
recorded by the last hardware reset, or `none` while in deep sleep. -/
structure Epd5in79State where
  power_on : Option Nat
  color_in_buf : ColorInBuf
  init_for : Option DisplayMode
deriving DecidableEq, Repr

/-- `Epd5in79State::is_deepsleep`: `self.power_on.is_none()`. -/
def Epd5in79State.is_deepsleep (st : Epd5in79State) : Bool :=
  st.power_on.isNone

/-- `Epd5in79State::is_ready_for`:
`(!self.is_deepsleep()) && self.init_for == Some(mode)`. -/
def Epd5in79State.is_ready_for (st : Epd5in79State) (mode : DisplayMode) : Bool :=
  !st.is_deepsleep && decide (st.init_for = some mode)

/-- `epd5in79::Epd5in79Impl`: the four byte planes and the driver state.
`buffer0`/`buffer1` are the master/slave primary ("bw", commands 0x24/0xa4)
planes, `buffer2`/`buffer3` the master/slave secondary ("r", 0x26/0xa6)
planes. -/
structure Epd5in79Impl where
  buffer0 : Nat → Nat
  buffer1 : Nat → Nat
  buffer2 : Nat → Nat
  buffer3 : Nat → Nat
  state : Epd5in79State

/-- `Epd5in79Impl::new`: planes all `!0` (= 255), asleep, binary color tag. -/
def Epd5in79Impl.new : Epd5in79Impl :=
  { buffer0 := fun _ => 255
    buffer1 := fun _ => 255
    buffer2 := fun _ => 255
    buffer3 := fun _ => 255
    state := { power_on := none, color_in_buf := ColorInBuf.Binary, init_for := none } }

/-- `Epd5in79Impl::set_binary` (argument pattern `Pixel(point, color)`). -/
def set_binary (e : Epd5in79Impl) (point : Point) (color : BinaryColor) : Epd5in79Impl :=
  if is_point_in_screen point then
    let e1 :=
      if point.x < 50 * 8 then
        -- master
        let buf_index := 50 * point.y.toNat + point.x.toNat / 8
        let offset := 7 - point.x.toNat % 8
        let v := set_binary_value color offset (e.buffer0 buf_index)
        { e with buffer0 := updByte e.buffer0 buf_index v }
      else e
    if 49 * 8 ≤ point.x then
      -- slave
      let buf_index := 50 * point.y.toNat + (point.x.toNat - 49 * 8) / 8
      let offset := 7 - (point.x.toNat - 49 * 8) % 8
      let v := set_binary_value color offset (e1.buffer1 buf_index)
      { e1 with buffer1 := updByte e1.buffer1 buf_index v }
    else e1
  else e

/-- `Epd5in79Impl::get_binary`. -/
def get_binary (e : Epd5in79Impl) (point : Point) : Option BinaryColor :=
  if is_point_in_screen point then
    if point.x < 49 * 8 then
      -- master
      some (get_binary_from_value (7 - point.x.toNat % 8)
        (e.buffer0 (50 * point.y.toNat + point.x.toNat / 8)))
    else
      -- slave
      some (get_binary_from_value (7 - (point.x.toNat - 49 * 8) % 8)
        (e.buffer1 (50 * point.y.toNat + (point.x.toNat - 49 * 8) / 8)))
  else none

/-- `Epd5in79Impl::set_gray`. -/
def set_gray (e : Epd5in79Impl) (point : Point) (color : Gray2) : Epd5in79Impl :=
  if is_point_in_screen point then
    let e1 :=
      if point.x < 50 * 8 then
        -- master
        let buf_index := 50 * point.y.toNat + point.x.toNat / 8
        let offset := 7 - point.x.toNat % 8
        let v := set_gray_value color offset (e.buffer0 buf_index) (e.buffer2 buf_index)
        { e with buffer0 := updByte e.buffer0 buf_index v.1,
                 buffer2 := updByte e.buffer2 buf_index v.2 }
      else e
    if 49 * 8 ≤ point.x then
      -- slave
      let buf_index := 50 * point.y.toNat + (point.x.toNat - 49 * 8) / 8
      let offset := 7 - (point.x.toNat - 49 * 8) % 8
      let v := set_gray_value color offset (e1.buffer1 buf_index) (e1.buffer3 buf_index)
      { e1 with buffer1 := updByte e1.buffer1 buf_index v.1,
                buffer3 := updByte e1.buffer3 buf_index v.2 }
    else e1
  else e

/-- `Epd5in79Impl::get_gray`. -/
def get_gray (e : Epd5in79Impl) (point : Point) : Option Gray2 :=
  if is_point_in_screen point then
    if point.x < 49 * 8 then
      -- master
      some (get_gray_from_values (7 - point.x.toNat % 8)
        (e.buffer0 (50 * point.y.toNat + point.x.toNat / 8))
        (e.buffer2 (50 * point.y.toNat + point.x.toNat / 8)))
    else
      -- slave
      some (get_gray_from_values (7 - (point.x.toNat - 49 * 8) % 8)
        (e.buffer1 (50 * point.y.toNat + (point.x.toNat - 49 * 8) / 8))
        (e.buffer3 (50 * point.y.toNat + (point.x.toNat - 49 * 8) / 8)))
  else none

/-- `Epd5in79Impl::mapping_to_binary`: if the buffer already holds binary data
this is a no-op, otherwise every pixel of the 792×272 grid is read as gray,
converted through `f` and re-written as binary, and the color tag is set. -/
def mapping_to_binary (f : Gray2 → BinaryColor) (e : Epd5in79Impl) : Epd5in79Impl :=
  if e.state.color_in_buf = ColorInBuf.Binary then e
  else
    let e' := (List.range 792).foldl (fun acc x =>
      (List.range 272).foldl (fun acc2 y =>
        let point : Point := ⟨(x : Int), (y : Int)⟩
        match get_gray acc2 point with
        | none => acc2
        | some color => set_binary acc2 point (f color)) acc) e
    { e' with state.color_in_buf := ColorInBuf.Binary }

/-- `Epd5in79Impl::mapping_to_gray2`: dual of `mapping_to_binary`. -/
def mapping_to_gray2 (f : BinaryColor → Gray2) (e : Epd5in79Impl) : Epd5in79Impl :=
  if e.state.color_in_buf = ColorInBuf.Gray then e
  else
    let e' := (List.range 792).foldl (fun acc x =>
      (List.range 272).foldl (fun acc2 y =>
        let point : Point := ⟨(x : Int), (y : Int)⟩
        match get_binary acc2 point with
        | none => acc2
        | some color => set_gray acc2 point (f color)) acc) e
    { e' with state.color_in_buf := ColorInBuf.Gray }

/-- `Epd5in79Impl::power_on_dur`: `self.state.power_on.map(|i| i.elapsed())`,
with the current clock passed explicitly. -/
def power_on_dur (e : Epd5in79Impl) (now : Nat) : Option Nat :=
  e.state.power_on.map (fun i => now - i)

/-- One observable interaction with the hardware.  A `cmd` is a command byte
(`SpiInterface::command`), a `dat` a small data payload following a command
(`SpiInterface::data`), a `plane c bytes` the 13600-byte plane payload sent by
`Epd5in79Impl::send_buf` for plane command `c`, and the rest are pin writes,
delays, and successful busy waits. -/
inductive Event where
  | cmd (c : Nat)
  | dat (bytes : List Nat)
  | plane (c : Nat) (bytes : Nat → Nat)
  | setPower (b : Bool)
  | setRst (b : Bool)
  | delayUs (us : Nat)
  | waitBusy

/-- The error the panel driver itself can raise in the happy-path hardware
model: `anyhow::bail!("epd is in deep sleep mode")`. -/
inductive EpdError where
  | deepSleep
deriving DecidableEq, Repr

/-- `Epd5in79State::check_deepsleep`. -/
def Epd5in79State.check_deepsleep (st : Epd5in79State) : Except EpdError Unit :=
  if st.is_deepsleep then Except.error EpdError.deepSleep else Except.ok ()

/-- Events of `Epd5in79Impl::command_data` (command byte, then the payload if
nonempty; chunking is invisible at this level). -/
def commandDataEv (c : Nat) (d : List Nat) : List Event :=
  Event.cmd c :: (if d.isEmpty then [] else [Event.dat d])

/-- `Epd5in79Impl::send_buf`: the plane selected by the command byte. -/
def send_buf (e : Epd5in79Impl) (c : Nat) : List Event :=
  match c with
  | 0x24 => [Event.cmd 0x24, Event.plane 0x24 e.buffer0]
  | 0xa4 => [Event.cmd 0xa4, Event.plane 0xa4 e.buffer1]
  | 0x26 => [Event.cmd 0x26, Event.plane 0x26 e.buffer2]
  | 0xa6 => [Event.cmd 0xa6, Event.plane 0xa6 e.buffer3]
  | _ => []  -- unreachable!() in the source; never called with other bytes

/-- `Epd5in79Impl::send_bufs`. -/
def send_bufs (e : Epd5in79Impl) (cs : List Nat) : List Event :=
  cs.foldr (fun c acc => send_buf e c ++ acc) []

/-- `Epd5in79Impl::send_bufs_all`: planes 0x24, 0x26, 0xa4, 0xa6 in order. -/
def send_bufs_all (e : Epd5in79Impl) : List Event :=
  send_bufs e [0x24, 0x26, 0xa4, 0xa6]

/-- `Epd5in79Impl::deep_sleep`: no-op when already asleep, otherwise command
0x10 payload 0x03, clear `power_on`, power off, deassert reset. -/
def deep_sleep (e : Epd5in79Impl) : Epd5in79Impl × List Event :=
  if e.state.is_deepsleep then (e, [])
  else
    ({ e with state.power_on := none },
     commandDataEv 0x10 [0x03] ++ [Event.setPower false, Event.setRst false])

/-- `Epd5in79::hw_reset`: three timed reset pulses, busy wait, record the
power-on instant. -/
def hw_reset (now : Nat) (e : Epd5in79Impl) : Epd5in79Impl × List Event :=
  ({ e with state.power_on := some now },
   [Event.setRst true, Event.delayUs 200, Event.setRst false, Event.delayUs 200,
    Event.setRst true, Event.delayUs 200, Event.waitBusy])

/-- Events of `Epd5in79::sw_reset`: software reset command then busy wait. -/
def sw_resetEv : List Event := [Event.cmd 0x12, Event.waitBusy]

/-- `Epd5in79::power_on`: if asleep, power up and hardware-reset first; always
software-reset and clear `init_for`. -/
def power_on (now : Nat) (e : Epd5in79Impl) : Epd5in79Impl × List Event :=
  if e.state.is_deepsleep then
    let r := hw_reset now e
    ({ r.1 with state.init_for := none }, Event.setPower true :: r.2 ++ sw_resetEv)
  else
    ({ e with state.init_for := none }, sw_resetEv)

/-- `Epd5in79::wait_busy`: deep-sleep guard, then busy wait. -/
def wait_busy (e : Epd5in79Impl) : Except EpdError (List Event) :=
  match e.state.check_deepsleep with
  | Except.error err => Except.error err
  | Except.ok _ => Except.ok [Event.waitBusy]

/-- Events of `Epd5in79::set_address`: the fixed master/slave addressing
window commands. -/
def set_addressEv : List Event :=
  commandDataEv 0x11 [0x01] ++
  commandDataEv 0x44 [0x00, 0x31] ++
  commandDataEv 0x45 [0x0f, 0x01, 0x00, 0x00] ++
  commandDataEv 0x4e [0x00] ++
  commandDataEv 0x4f [0x0f, 0x01] ++
  commandDataEv 0x91 [0x00] ++
  commandDataEv 0xc4 [0x31, 0x00] ++
  commandDataEv 0xc5 [0x0f, 0x01, 0x00, 0x00] ++
  commandDataEv 0xce [0x31] ++
  commandDataEv 0xcf [0x0f, 0x01]

/-- `epd5in79::LUT_DATA`: the fixed 227-byte waveform lookup table. -/
def LUT_DATA : List Nat :=
  [0x00, 0x00, 0x00, 0x00, 0x00, 0x00, 0x00,
   0x00, 0x00, 0x00, 0x00, 0x00, 0x00, 0x00,
   0x00, 0x00, 0x00, 0x00, 0x00, 0x00, 0x00,
   0x00, 0x00, 0x00, 0x00, 0x00, 0x00, 0x00,
   0x00, 0x00, 0x00, 0x00, 0x00, 0x00, 0x00,
   0x00, 0x00, 0x00, 0x00, 0x00, 0x00, 0x00,

   0x01, 0x4A, 0x00, 0x00, 0x00, 0x01, 0x00,
   0x01, 0x82, 0x42, 0x00, 0x00, 0x10, 0x00,
   0x01, 0x8A, 0x00, 0x00, 0x00, 0x01, 0x00,
   0x00, 0x00, 0x00, 0x00, 0x00, 0x00, 0x00,
   0x00, 0x00, 0x00, 0x00, 0x00, 0x00, 0x00,
   0x00, 0x00, 0x00, 0x00, 0x00, 0x00, 0x00,

   0x01, 0x41, 0x00, 0x00, 0x00, 0x01, 0x00,
   0x01, 0x82, 0x42, 0x00, 0x00, 0x10, 0x00,
   0x01, 0x81, 0x00, 0x00, 0x00, 0x01, 0x00,
   0x00, 0x00, 0x00, 0x00, 0x00, 0x00, 0x00,
   0x00, 0x00, 0x00, 0x00, 0x00, 0x00, 0x00,
   0x00, 0x00, 0x00, 0x00, 0x00, 0x00, 0x00,

   0x01, 0x81, 0x00, 0x00, 0x00, 0x01, 0x00,
   0x01, 0x82, 0x42, 0x00, 0x00, 0x10, 0x00,
   0x01, 0x41, 0x00, 0x00, 0x00, 0x01, 0x00,
   0x00, 0x00, 0x00, 0x00, 0x00, 0x00, 0x00,
   0x00, 0x00, 0x00, 0x00, 0x00, 0x00, 0x00,
   0x00, 0x00, 0x00, 0x00, 0x00, 0x00, 0x00,

   0x01, 0x8A, 0x00, 0x00, 0x00, 0x01, 0x00,
   0x01, 0x82, 0x42, 0x00, 0x00, 0x10, 0x00,
   0x01, 0x4A, 0x00, 0x00, 0x00, 0x01, 0x00,
   0x00, 0x00, 0x00, 0x00, 0x00, 0x00, 0x00,
   0x00, 0x00, 0x00, 0x00, 0x00, 0x00, 0x00,
   0x00, 0x00, 0x00, 0x00, 0x00, 0x00, 0x00,

   0x00, 0x00, 0x00, 0x00, 0x00, 0x00, 0x00,
   0x00, 0x00, 0x00, 0x00, 0x00, 0x00, 0x00,

   0x02, 0x00, 0x00]

/-- Events of `Epd5in79::load_lut` (gray mode LUT and timing registers). -/
def load_lutEv : List Event :=
  commandDataEv 0x32 LUT_DATA ++
  commandDataEv 0x3f [0x22] ++
  commandDataEv 0x03 [0x17] ++
  commandDataEv 0x04 [0x41, 0xa8, 0x32] ++
  commandDataEv 0x2c [0x40]

/-- `Epd5in79::init_binary_full`: power-on (with software reset), addressing
window, record mode `Full`. -/
def init_binary_full (now : Nat) (e : Epd5in79Impl) : Epd5in79Impl × List Event :=
  let r := power_on now e
  ({ r.1 with state.init_for := some DisplayMode.Full }, r.2 ++ set_addressEv)

/-- `Epd5in79::ensure_inited_binary_full`. -/
def ensure_inited_binary_full (now : Nat) (e : Epd5in79Impl) : Epd5in79Impl × List Event :=
  if e.state.is_ready_for DisplayMode.Full then (e, [])
  else init_binary_full now e

/-- `Epd5in79::display_binary_full`: ensure full-mode init, zero the secondary
planes, push all four planes, trigger the full refresh (0x22/0xf7, 0x20),
settle delay, guarded busy wait. -/
def display_binary_full (now : Nat) (e : Epd5in79Impl) :
    Except EpdError (Epd5in79Impl × List Event) :=
  let r := ensure_inited_binary_full now e
  let e2 := { r.1 with buffer2 := fun _ => 0, buffer3 := fun _ => 0 }
  match wait_busy e2 with
  | Except.error err => Except.error err
  | Except.ok tw =>
      Except.ok (e2, r.2 ++ send_bufs_all e2 ++ commandDataEv 0x22 [0xf7] ++
        [Event.cmd 0x20, Event.delayUs 200] ++ tw)

/-- `Epd5in79::init_binary_fast`: power-on, the two fast-mode handshake
trigger/wait cycles, addressing window, record mode `Fast`.  The two interior
waits are the guarded `wait_busy`; after `power_on` the panel is awake, and
the happy-path model is made explicit by matching on the guard. -/
def init_binary_fast (now : Nat) (e : Epd5in79Impl) :
    Except EpdError (Epd5in79Impl × List Event) :=
  let r := power_on now e
  match wait_busy r.1 with
  | Except.error err => Except.error err
  | Except.ok tw1 =>
    match wait_busy r.1 with
    | Except.error err => Except.error err
    | Except.ok tw2 =>
        Except.ok ({ r.1 with state.init_for := some DisplayMode.Fast },
          r.2 ++ commandDataEv 0x18 [0x80] ++ commandDataEv 0x22 [0xb1] ++
          [Event.cmd 0x20] ++ tw1 ++
          commandDataEv 0x1a [0x64, 0x00] ++ commandDataEv 0x22 [0x91] ++
          [Event.cmd 0x20] ++ tw2 ++ set_addressEv)

/-- `Epd5in79::ensure_inited_binary_fast`. -/
def ensure_inited_binary_fast (now : Nat) (e : Epd5in79Impl) :
    Except EpdError (Epd5in79Impl × List Event) :=
  if e.state.is_ready_for DisplayMode.Fast then Except.ok (e, [])
  else init_binary_fast now e

/-- `Epd5in79::display_binary_fast`. -/
def display_binary_fast (now : Nat) (e : Epd5in79Impl) :
    Except EpdError (Epd5in79Impl × List Event) :=
  match ensure_inited_binary_fast now e with
  | Except.error err => Except.error err
  | Except.ok r =>
    let e2 := { r.1 with buffer2 := fun _ => 0, buffer3 := fun _ => 0 }
    match wait_busy e2 with
    | Except.error err => Except.error err
    | Except.ok tw =>
        Except.ok (e2, r.2 ++ send_bufs_all e2 ++ commandDataEv 0x22 [0xc7] ++
          [Event.cmd 0x20, Event.delayUs 200] ++ tw)

/-- `Epd5in79::init_binary_partial` (source name `init_binary_partial`):
power-on, border waveform 0x3c/0x80, addressing window, copy the primary
planes into the secondary planes and push the secondary planes (the
previous-image reference), record mode `Part`. -/
def init_binary_part (now : Nat) (e : Epd5in79Impl) : Epd5in79Impl × List Event :=
  let r := power_on now e
  let e2 := { r.1 with buffer2 := r.1.buffer0, buffer3 := r.1.buffer1 }
  ({ e2 with state.init_for := some DisplayMode.Part },
   r.2 ++ commandDataEv 0x3c [0x80] ++ set_addressEv ++ send_bufs e2 [0x26, 0xa6])

/-- `Epd5in79::ensure_inited_binary_partial` (source name
`ensure_inited_binary_partial`). -/
def ensure_inited_binary_part (now : Nat) (e : Epd5in79Impl) : Epd5in79Impl × List Event :=
  if e.state.is_ready_for DisplayMode.Part then (e, [])
  else init_binary_part now e

/-- `Epd5in79::display_binary_partial` (source name
`display_binary_partial`): ensure partial-mode init, push only the primary
planes 0x24/0xa4, trigger the partial refresh (0x22/0xff, 0x20), settle delay,
guarded busy wait.  The secondary planes are not cleared here. -/
def display_binary_part (now : Nat) (e : Epd5in79Impl) :
    Except EpdError (Epd5in79Impl × List Event) :=
  let r := ensure_inited_binary_part now e
  match wait_busy r.1 with
  | Except.error err => Except.error err
  | Except.ok tw =>
      Except.ok (r.1, r.2 ++ send_bufs r.1 [0x24, 0xa4] ++ commandDataEv 0x22 [0xff] ++
        [Event.cmd 0x20, Event.delayUs 200] ++ tw)

/-- `Epd5in79::init_gray2`: power-on, soft-start and border registers,
addressing window, LUT load, record mode `Gray2M`. -/
def init_gray2 (now : Nat) (e : Epd5in79Impl) : Epd5in79Impl × List Event :=
  let r := power_on now e
  ({ r.1 with state.init_for := some DisplayMode.Gray2M },
   r.2 ++ commandDataEv 0x0c [0x8b, 0x9c, 0xa6, 0x0f] ++ commandDataEv 0x3c [0x81] ++
     set_addressEv ++ load_lutEv)

/-- `Epd5in79::ensure_inited_gray2`. -/
def ensure_inited_gray2 (now : Nat) (e : Epd5in79Impl) : Epd5in79Impl × List Event :=
  if e.state.is_ready_for DisplayMode.Gray2M then (e, [])
  else init_gray2 now e

/-- `Epd5in79::display_gray2`: ensure gray-mode init, push all four planes,
trigger the gray refresh (0x22/0xcf, 0x20), settle delay, guarded busy
wait. -/
def display_gray2 (now : Nat) (e : Epd5in79Impl) :
    Except EpdError (Epd5in79Impl × List Event) :=
  let r := ensure_inited_gray2 now e
  match wait_busy r.1 with
  | Except.error err => Except.error err
  | Except.ok tw =>
      Except.ok (r.1, r.2 ++ send_bufs_all r.1 ++ commandDataEv 0x22 [0xcf] ++
        [Event.cmd 0x20, Event.delayUs 200] ++ tw)

/-- Number of occurrences of command byte `c` in a trace. -/
def countCmd (c : Nat) : List Event → Nat
  | [] => 0
  | Event.cmd c' :: t => (if c' = c then 1 else 0) + countCmd c t
  | _ :: t => countCmd c t

/-- The plane payloads pushed for plane command `c`, in order. -/
def planesSent (c : Nat) : List Event → List (Nat → Nat)
  | [] => []
  | Event.plane c' b :: t => if c' = c then b :: planesSent c t else planesSent c t
  | _ :: t => planesSent c t

/-- `waveshare_epd_core::error::TimeOutError` with `Nat` durations. -/
structure TimeOutError where
  timeout : Nat
  elapsed : Nat
deriving DecidableEq, Repr

/-- The poll loop of `SpiInterface::wait_busy_timeout` after the initial busy
check: while the elapsed time `t` is below `timeout`, sleep `s + 1` time units
(the `max_one`-adjusted poll step) and re-check the busy line; on success
return the elapsed time, otherwise fail with the configured timeout and the
actual elapsed time.  `busyAt t` is the level of the busy line once `t` time
units have elapsed. -/
def wbtLoop (busyAt : Nat → Bool) (s t timeout : Nat) : Except TimeOutError Nat :=
  if t < timeout then
    let t' := t + s + 1
    if busyAt t' = false then Except.ok t'
    else wbtLoop busyAt s t' timeout
  else Except.error { timeout := timeout, elapsed := t }
termination_by timeout - t
decreasing_by omega

/-- `SpiInterface::wait_busy_timeout`: immediate success at zero elapsed time
if the busy line is already inactive, otherwise the poll loop with the step
clamped to at least one unit (`DelayStep::max_one`). -/
def wait_busy_timeout (busyAt : Nat → Bool) (step timeout : Nat) :
    Except TimeOutError Nat :=
  if busyAt 0 = false then Except.ok 0
  else wbtLoop busyAt (max step 1 - 1) 0 timeout

lemma and_mask_bne (v o : Nat) : (v &&& (1 <<< o) != 0) = v.testBit o := by
  rw [Nat.one_shiftLeft, Nat.and_two_pow]
  cases h : v.testBit o <;> simp [(Nat.two_pow_pos o).ne']

lemma get_binary_from_value_eq (o v : Nat) :
    get_binary_from_value o v =
      if v.testBit o then BinaryColor.On else BinaryColor.Off := by
  rw [get_binary_from_value, and_mask_bne]

lemma testBit_or_mask (o v i : Nat) :
    (v ||| (1 <<< o)).testBit i = if i = o then true else v.testBit i := by
  rw [Nat.one_shiftLeft, Nat.testBit_or, Nat.testBit_two_pow]
  by_cases h : i = o
  · subst h; simp
  · rw [if_neg h]
    simp [Ne.symm h]

lemma testBit_and_mask (o v i : Nat) (hi : i < 8) :
    (v &&& (255 ^^^ (1 <<< o))).testBit i = if i = o then false else v.testBit i := by
  have h255 : (255 : Nat) = 2 ^ 8 - 1 := rfl
  rw [Nat.one_shiftLeft, Nat.testBit_and, Nat.testBit_xor, h255,
    Nat.testBit_two_pow_sub_one, Nat.testBit_two_pow]
  by_cases h : i = o
  · subst h; simp [hi]
  · rw [if_neg h]
    simp [hi, Ne.symm h]

lemma testBit_set_binary_value (c : BinaryColor) (o v i : Nat) (hi : i < 8) :
    (set_binary_value c o v).testBit i = if i = o then c.is_on else v.testBit i := by
  cases c <;>
    simp only [set_binary_value, BinaryColor.is_on, if_true, if_false,
      testBit_or_mask o v i, testBit_and_mask o v i hi, Bool.false_eq_true]

lemma get_set_value_binary (c : BinaryColor) (o v : Nat) (ho : o < 8) :
    get_binary_from_value o (set_binary_value c o v) = c := by
  rw [get_binary_from_value_eq, testBit_set_binary_value c o v o ho, if_pos rfl]
  cases c <;> simp [BinaryColor.is_on]

lemma testBit_set_gray_value_fst (g : Gray2) (o bw r i : Nat) (hi : i < 8) :
    ((set_gray_value g o bw r).1).testBit i =
      if i = o then g.luma.val.testBit 0 else bw.testBit i := by
  rcases g with ⟨⟨l, hl⟩⟩
  interval_cases l <;>
    simp only [set_gray_value, testBit_or_mask o bw i, testBit_and_mask o bw i hi] <;>
    by_cases h : i = o <;> simp [h]

lemma testBit_set_gray_value_snd (g : Gray2) (o bw r i : Nat) (hi : i < 8) :
    ((set_gray_value g o bw r).2).testBit i =
      if i = o then g.luma.val.testBit 1 else r.testBit i := by
  rcases g with ⟨⟨l, hl⟩⟩
  interval_cases l <;>
    simp only [set_gray_value, testBit_or_mask o r i, testBit_and_mask o r i hi] <;>
    by_cases h : i = o <;> simp [h] <;> decide

lemma get_gray_from_values_eq (o bw r : Nat) :
    get_gray_from_values o bw r =
      match bw.testBit o, r.testBit o with
      | true, true => Gray2.WHITE
      | false, true => Gray2.new 2
      | true, false => Gray2.new 1
      | false, false => Gray2.BLACK := by
  rw [get_gray_from_values, and_mask_bne, and_mask_bne]

lemma get_set_value_gray (g : Gray2) (o bw r : Nat) (ho : o < 8) :
    get_gray_from_values o (set_gray_value g o bw r).1 (set_gray_value g o bw r).2 = g := by
  rw [get_gray_from_values_eq, testBit_set_gray_value_fst g o bw r o ho,
    testBit_set_gray_value_snd g o bw r o ho, if_pos rfl, if_pos rfl]
  rcases g with ⟨⟨l, hl⟩⟩
  interval_cases l <;> simp [Gray2.WHITE, Gray2.BLACK, Gray2.new] <;> rfl

lemma set_binary_left (e : Epd5in79Impl) (p : Point) (c : BinaryColor)
    (hp : is_point_in_screen p = true) (hx : p.x < 392) :
    set_binary e p c =
      { e with
        buffer0 := updByte e.buffer0 (50 * p.y.toNat + p.x.toNat / 8)
            (set_binary_value c (7 - p.x.toNat % 8)
              (e.buffer0 (50 * p.y.toNat + p.x.toNat / 8))) } := by
  rw [set_binary, if_pos hp]
  dsimp only
  rw [if_pos (show p.x < 50 * 8 by omega), if_neg (show ¬ (49 * 8 ≤ p.x) by omega)]

lemma set_binary_mid (e : Epd5in79Impl) (p : Point) (c : BinaryColor)
    (hp : is_point_in_screen p = true) (hx1 : 392 ≤ p.x) (hx2 : p.x < 400) :
    set_binary e p c =
      { e with
        buffer0 := updByte e.buffer0 (50 * p.y.toNat + p.x.toNat / 8)
            (set_binary_value c (7 - p.x.toNat % 8)
              (e.buffer0 (50 * p.y.toNat + p.x.toNat / 8))),
        buffer1 := updByte e.buffer1 (50 * p.y.toNat + (p.x.toNat - 49 * 8) / 8)
            (set_binary_value c (7 - (p.x.toNat - 49 * 8) % 8)
              (e.buffer1 (50 * p.y.toNat + (p.x.toNat - 49 * 8) / 8))) } := by
  rw [set_binary, if_pos hp]
  dsimp only
  rw [if_pos (show p.x < 50 * 8 by omega), if_pos (show 49 * 8 ≤ p.x by omega)]

lemma set_binary_right (e : Epd5in79Impl) (p : Point) (c : BinaryColor)
    (hp : is_point_in_screen p = true) (hx : 400 ≤ p.x) :
    set_binary e p c =
      { e with
        buffer1 := updByte e.buffer1 (50 * p.y.toNat + (p.x.toNat - 49 * 8) / 8)
            (set_binary_value c (7 - (p.x.toNat - 49 * 8) % 8)
              (e.buffer1 (50 * p.y.toNat + (p.x.toNat - 49 * 8) / 8))) } := by
  rw [set_binary, if_pos hp]
  dsimp only
  rw [if_neg (show ¬ p.x < 50 * 8 by omega), if_pos (show 49 * 8 ≤ p.x by omega)]

lemma get_binary_master (e : Epd5in79Impl) (p : Point)
    (hp : is_point_in_screen p = true) (hx : p.x < 392) :
    get_binary e p =
      some (get_binary_from_value (7 - p.x.toNat % 8)
        (e.buffer0 (50 * p.y.toNat + p.x.toNat / 8))) := by
  rw [get_binary, if_pos hp, if_pos (show p.x < 49 * 8 by omega)]

lemma get_binary_slave (e : Epd5in79Impl) (p : Point)
    (hp : is_point_in_screen p = true) (hx : 392 ≤ p.x) :
    get_binary e p =
      some (get_binary_from_value (7 - (p.x.toNat - 49 * 8) % 8)
        (e.buffer1 (50 * p.y.toNat + (p.x.toNat - 49 * 8) / 8))) := by
  rw [get_binary, if_pos hp, if_neg (show ¬ p.x < 49 * 8 by omega)]

lemma set_gray_left (e : Epd5in79Impl) (p : Point) (g : Gray2)
    (hp : is_point_in_screen p = true) (hx : p.x < 392) :
    set_gray e p g =
      { e with
        buffer0 := updByte e.buffer0 (50 * p.y.toNat + p.x.toNat / 8)
            (set_gray_value g (7 - p.x.toNat % 8)
              (e.buffer0 (50 * p.y.toNat + p.x.toNat / 8))
              (e.buffer2 (50 * p.y.toNat + p.x.toNat / 8))).1,
        buffer2 := updByte e.buffer2 (50 * p.y.toNat + p.x.toNat / 8)
            (set_gray_value g (7 - p.x.toNat % 8)
              (e.buffer0 (50 * p.y.toNat + p.x.toNat / 8))
              (e.buffer2 (50 * p.y.toNat + p.x.toNat / 8))).2 } := by
  rw [set_gray, if_pos hp]
  dsimp only
  rw [if_pos (show p.x < 50 * 8 by omega), if_neg (show ¬ (49 * 8 ≤ p.x) by omega)]

lemma set_gray_mid (e : Epd5in79Impl) (p : Point) (g : Gray2)
    (hp : is_point_in_screen p = true) (hx1 : 392 ≤ p.x) (hx2 : p.x < 400) :
    set_gray e p g =
      { e with
        buffer0 := updByte e.buffer0 (50 * p.y.toNat + p.x.toNat / 8)
            (set_gray_value g (7 - p.x.toNat % 8)
              (e.buffer0 (50 * p.y.toNat + p.x.toNat / 8))
              (e.buffer2 (50 * p.y.toNat + p.x.toNat / 8))).1,
        buffer2 := updByte e.buffer2 (50 * p.y.toNat + p.x.toNat / 8)
            (set_gray_value g (7 - p.x.toNat % 8)
              (e.buffer0 (50 * p.y.toNat + p.x.toNat / 8))
              (e.buffer2 (50 * p.y.toNat + p.x.toNat / 8))).2,
        buffer1 := updByte e.buffer1 (50 * p.y.toNat + (p.x.toNat - 49 * 8) / 8)
            (set_gray_value g (7 - (p.x.toNat - 49 * 8) % 8)
              (e.buffer1 (50 * p.y.toNat + (p.x.toNat - 49 * 8) / 8))
              (e.buffer3 (50 * p.y.toNat + (p.x.toNat - 49 * 8) / 8))).1,
        buffer3 := updByte e.buffer3 (50 * p.y.toNat + (p.x.toNat - 49 * 8) / 8)
            (set_gray_value g (7 - (p.x.toNat - 49 * 8) % 8)
              (e.buffer1 (50 * p.y.toNat + (p.x.toNat - 49 * 8) / 8))
              (e.buffer3 (50 * p.y.toNat + (p.x.toNat - 49 * 8) / 8))).2 } := by
  rw [set_gray, if_pos hp]
  dsimp only
  rw [if_pos (show p.x < 50 * 8 by omega), if_pos (show 49 * 8 ≤ p.x by omega)]

lemma set_gray_right (e : Epd5in79Impl) (p : Point) (g : Gray2)
    (hp : is_point_in_screen p = true) (hx : 400 ≤ p.x) :
    set_gray e p g =
      { e with
        buffer1 := updByte e.buffer1 (50 * p.y.toNat + (p.x.toNat - 49 * 8) / 8)
            (set_gray_value g (7 - (p.x.toNat - 49 * 8) % 8)
              (e.buffer1 (50 * p.y.toNat + (p.x.toNat - 49 * 8) / 8))
              (e.buffer3 (50 * p.y.toNat + (p.x.toNat - 49 * 8) / 8))).1,
        buffer3 := updByte e.buffer3 (50 * p.y.toNat + (p.x.toNat - 49 * 8) / 8)
            (set_gray_value g (7 - (p.x.toNat - 49 * 8) % 8)
              (e.buffer1 (50 * p.y.toNat + (p.x.toNat - 49 * 8) / 8))
              (e.buffer3 (50 * p.y.toNat + (p.x.toNat - 49 * 8) / 8))).2 } := by
  rw [set_gray, if_pos hp]
  dsimp only
  rw [if_neg (show ¬ p.x < 50 * 8 by omega), if_pos (show 49 * 8 ≤ p.x by omega)]

lemma get_gray_master (e : Epd5in79Impl) (p : Point)
    (hp : is_point_in_screen p = true) (hx : p.x < 392) :
    get_gray e p =
      some (get_gray_from_values (7 - p.x.toNat % 8)
        (e.buffer0 (50 * p.y.toNat + p.x.toNat / 8))
        (e.buffer2 (50 * p.y.toNat + p.x.toNat / 8))) := by
  rw [get_gray, if_pos hp, if_pos (show p.x < 49 * 8 by omega)]

lemma get_gray_slave (e : Epd5in79Impl) (p : Point)
    (hp : is_point_in_screen p = true) (hx : 392 ≤ p.x) :
    get_gray e p =
      some (get_gray_from_values (7 - (p.x.toNat - 49 * 8) % 8)
        (e.buffer1 (50 * p.y.toNat + (p.x.toNat - 49 * 8) / 8))
        (e.buffer3 (50 * p.y.toNat + (p.x.toNat - 49 * 8) / 8))) := by
  rw [get_gray, if_pos hp, if_neg (show ¬ p.x < 49 * 8 by omega)]

lemma point_ne_coords {p q : Point} (h : q ≠ p) : q.x ≠ p.x ∨ q.y ≠ p.y := by
  by_contra hc
  push_neg at hc
  rcases p with ⟨px, py⟩
  rcases q with ⟨qx, qy⟩
  exact h (by simp_all)

lemma get_set_binary (e : Epd5in79Impl) (p q : Point) (c : BinaryColor)
    (hp : is_point_in_screen p = true) (hq : is_point_in_screen q = true) :
    get_binary (set_binary e p c) q = if q = p then some c else get_binary e q := by
  have hp' := hp
  have hq' := hq
  simp only [is_point_in_screen, Bool.and_eq_true, decide_eq_true_eq] at hp' hq'
  obtain ⟨⟨⟨hpx0, hpx792⟩, hpy0⟩, hpy272⟩ := hp'
  obtain ⟨⟨⟨hqx0, hqx792⟩, hqy0⟩, hqy272⟩ := hq'
  by_cases hqp : q = p
  · subst hqp
    rw [if_pos rfl]
    rcases lt_or_le q.x 392 with hx | hx
    · rw [set_binary_left e q c hq hx, get_binary_master _ q hq hx]
      dsimp only
      simp only [updByte, eq_self_iff_true, if_true]
      rw [get_set_value_binary c (7 - q.x.toNat % 8) _ (by omega)]
    · rcases lt_or_le q.x 400 with hx2 | hx2
      · rw [set_binary_mid e q c hq hx hx2, get_binary_slave _ q hq hx]
        dsimp only
        simp only [updByte, eq_self_iff_true, if_true]
        rw [get_set_value_binary c (7 - (q.x.toNat - 49 * 8) % 8) _ (by omega)]
      · rw [set_binary_right e q c hq hx2, get_binary_slave _ q hq hx]
        dsimp only
        simp only [updByte, eq_self_iff_true, if_true]
        rw [get_set_value_binary c (7 - (q.x.toNat - 49 * 8) % 8) _ (by omega)]
  · rw [if_neg hqp]
    have hne := point_ne_coords hqp
    rcases lt_or_le p.x 392 with hpx | hpx
    · rw [set_binary_left e p c hp hpx]
      rcases lt_or_le q.x 392 with hqx | hqx
      · rw [get_binary_master _ q hq hqx, get_binary_master e q hq hqx]
        dsimp only
        simp only [updByte]
        by_cases hidx : (50 * q.y.toNat + q.x.toNat / 8) = (50 * p.y.toNat + p.x.toNat / 8)
        · rw [if_pos hidx]
          have hoff : (7 - q.x.toNat % 8) ≠ (7 - p.x.toNat % 8) := by
            rcases hne with h | h <;> omega
          rw [hidx, get_binary_from_value_eq, get_binary_from_value_eq,
            testBit_set_binary_value c _ _ _ (by omega), if_neg hoff]
        · rw [if_neg hidx]
      · rw [get_binary_slave _ q hq hqx, get_binary_slave e q hq hqx]
    · rcases lt_or_le p.x 400 with hpx2 | hpx2
      · rw [set_binary_mid e p c hp hpx hpx2]
        rcases lt_or_le q.x 392 with hqx | hqx
        · rw [get_binary_master _ q hq hqx, get_binary_master e q hq hqx]
          dsimp only
          simp only [updByte]
          have hidx : (50 * q.y.toNat + q.x.toNat / 8) ≠ (50 * p.y.toNat + p.x.toNat / 8) := by
            omega
          rw [if_neg hidx]
        · rw [get_binary_slave _ q hq hqx, get_binary_slave e q hq hqx]
          dsimp only
          simp only [updByte]
          by_cases hidx : (50 * q.y.toNat + (q.x.toNat - 49 * 8) / 8) =
              (50 * p.y.toNat + (p.x.toNat - 49 * 8) / 8)
          · rw [if_pos hidx]
            have hoff : (7 - (q.x.toNat - 49 * 8) % 8) ≠ (7 - (p.x.toNat - 49 * 8) % 8) := by
              rcases hne with h | h <;> omega
            rw [hidx, get_binary_from_value_eq, get_binary_from_value_eq,
              testBit_set_binary_value c _ _ _ (by omega), if_neg hoff]
          · rw [if_neg hidx]
      · rw [set_binary_right e p c hp hpx2]
        rcases lt_or_le q.x 392 with hqx | hqx
        · rw [get_binary_master _ q hq hqx, get_binary_master e q hq hqx]
        · rw [get_binary_slave _ q hq hqx, get_binary_slave e q hq hqx]
          dsimp only
          simp only [updByte]
          by_cases hidx : (50 * q.y.toNat + (q.x.toNat - 49 * 8) / 8) =
              (50 * p.y.toNat + (p.x.toNat - 49 * 8) / 8)
          · rw [if_pos hidx]
            have hoff : (7 - (q.x.toNat - 49 * 8) % 8) ≠ (7 - (p.x.toNat - 49 * 8) % 8) := by
              rcases hne with h | h <;> omega
            rw [hidx, get_binary_from_value_eq, get_binary_from_value_eq,
              testBit_set_binary_value c _ _ _ (by omega), if_neg hoff]
          · rw [if_neg hidx]

lemma get_gray_from_values_set_ne (g : Gray2) (o i bw r : Nat) (hi : i < 8) (hne : i ≠ o) :
    get_gray_from_values i (set_gray_value g o bw r).1 (set_gray_value g o bw r).2 =
      get_gray_from_values i bw r := by
  rw [get_gray_from_values_eq, get_gray_from_values_eq,
    testBit_set_gray_value_fst g o bw r i hi, testBit_set_gray_value_snd g o bw r i hi,
    if_neg hne, if_neg hne]

lemma get_set_gray (e : Epd5in79Impl) (p q : Point) (g : Gray2)
    (hp : is_point_in_screen p = true) (hq : is_point_in_screen q = true) :
    get_gray (set_gray e p g) q = if q = p then some g else get_gray e q := by
  have hp' := hp
  have hq' := hq
  simp only [is_point_in_screen, Bool.and_eq_true, decide_eq_true_eq] at hp' hq'
  obtain ⟨⟨⟨hpx0, hpx792⟩, hpy0⟩, hpy272⟩ := hp'
  obtain ⟨⟨⟨hqx0, hqx792⟩, hqy0⟩, hqy272⟩ := hq'
  by_cases hqp : q = p
  · subst hqp
    rw [if_pos rfl]
    rcases lt_or_le q.x 392 with hx | hx
    · rw [set_gray_left e q g hq hx, get_gray_master _ q hq hx]
      dsimp only
      simp only [updByte, eq_self_iff_true, if_true]
      rw [get_set_value_gray g (7 - q.x.toNat % 8) _ _ (by omega)]
    · rcases lt_or_le q.x 400 with hx2 | hx2
      · rw [set_gray_mid e q g hq hx hx2, get_gray_slave _ q hq hx]
        dsimp only
        simp only [updByte, eq_self_iff_true, if_true]
        rw [get_set_value_gray g (7 - (q.x.toNat - 49 * 8) % 8) _ _ (by omega)]
      · rw [set_gray_right e q g hq hx2, get_gray_slave _ q hq hx]
        dsimp only
        simp only [updByte, eq_self_iff_true, if_true]
        rw [get_set_value_gray g (7 - (q.x.toNat - 49 * 8) % 8) _ _ (by omega)]
  · rw [if_neg hqp]
    have hne := point_ne_coords hqp
    rcases lt_or_le p.x 392 with hpx | hpx
    · rw [set_gray_left e p g hp hpx]
      rcases lt_or_le q.x 392 with hqx | hqx
      · rw [get_gray_master _ q hq hqx, get_gray_master e q hq hqx]
        dsimp only
        simp only [updByte]
        by_cases hidx : (50 * q.y.toNat + q.x.toNat / 8) = (50 * p.y.toNat + p.x.toNat / 8)
        · have hoff : (7 - q.x.toNat % 8) ≠ (7 - p.x.toNat % 8) := by
            rcases hne with h | h <;> omega
          simp only [hidx, eq_self_iff_true, if_true]
          rw [get_gray_from_values_set_ne g (7 - p.x.toNat % 8) (7 - q.x.toNat % 8) _ _
            (by omega) hoff]
        · simp only [if_neg hidx]
      · rw [get_gray_slave _ q hq hqx, get_gray_slave e q hq hqx]
    · rcases lt_or_le p.x 400 with hpx2 | hpx2
      · rw [set_gray_mid e p g hp hpx hpx2]
        rcases lt_or_le q.x 392 with hqx | hqx
        · rw [get_gray_master _ q hq hqx, get_gray_master e q hq hqx]
          dsimp only
          simp only [updByte]
          have hidx : (50 * q.y.toNat + q.x.toNat / 8) ≠ (50 * p.y.toNat + p.x.toNat / 8) := by
            omega
          simp only [if_neg hidx]
        · rw [get_gray_slave _ q hq hqx, get_gray_slave e q hq hqx]
          dsimp only
          simp only [updByte]
          by_cases hidx : (50 * q.y.toNat + (q.x.toNat - 49 * 8) / 8) =
              (50 * p.y.toNat + (p.x.toNat - 49 * 8) / 8)
          · have hoff : (7 - (q.x.toNat - 49 * 8) % 8) ≠ (7 - (p.x.toNat - 49 * 8) % 8) := by
              rcases hne with h | h <;> omega
            simp only [hidx, eq_self_iff_true, if_true]
            rw [get_gray_from_values_set_ne g (7 - (p.x.toNat - 49 * 8) % 8)
              (7 - (q.x.toNat - 49 * 8) % 8) _ _ (by omega) hoff]
          · simp only [if_neg hidx]
      · rw [set_gray_right e p g hp hpx2]
        rcases lt_or_le q.x 392 with hqx | hqx
        · rw [get_gray_master _ q hq hqx, get_gray_master e q hq hqx]
        · rw [get_gray_slave _ q hq hqx, get_gray_slave e q hq hqx]
          dsimp only
          simp only [updByte]
          by_cases hidx : (50 * q.y.toNat + (q.x.toNat - 49 * 8) / 8) =
              (50 * p.y.toNat + (p.x.toNat - 49 * 8) / 8)
          · have hoff : (7 - (q.x.toNat - 49 * 8) % 8) ≠ (7 - (p.x.toNat - 49 * 8) % 8) := by
              rcases hne with h | h <;> omega
            simp only [hidx, eq_self_iff_true, if_true]
            rw [get_gray_from_values_set_ne g (7 - (p.x.toNat - 49 * 8) % 8)
              (7 - (q.x.toNat - 49 * 8) % 8) _ _ (by omega) hoff]
          · simp only [if_neg hidx]

lemma set_binary_buffer2 (e : Epd5in79Impl) (p : Point) (c : BinaryColor) :
    (set_binary e p c).buffer2 = e.buffer2 := by
  rw [set_binary]
  split
  · dsimp only
    split <;> split <;> rfl
  · rfl

lemma set_binary_buffer3 (e : Epd5in79Impl) (p : Point) (c : BinaryColor) :
    (set_binary e p c).buffer3 = e.buffer3 := by
  rw [set_binary]
  split
  · dsimp only
    split <;> split <;> rfl
  · rfl

lemma wbtLoop_all_busy (busyAt : Nat → Bool) (hb : ∀ t, busyAt t = true)
    (s timeout : Nat) :
    ∀ n t, timeout - t ≤ n →
      ∃ err, wbtLoop busyAt s t timeout = Except.error err ∧
        err.timeout = timeout ∧ timeout ≤ err.elapsed := by
  intro n
  induction n with
  | zero =>
    intro t ht
    rw [wbtLoop, if_neg (show ¬ t < timeout by omega)]
    refine ⟨_, rfl, rfl, ?_⟩
    show timeout ≤ t
    omega
  | succ n ih =>
    intro t ht
    by_cases h : t < timeout
    · rw [wbtLoop, if_pos h]
      dsimp only
      rw [hb (t + s + 1), if_neg (by decide)]
      exact ih (t + s + 1) (by omega)
    · rw [wbtLoop, if_neg h]
      refine ⟨_, rfl, rfl, ?_⟩
      show timeout ≤ t
      omega

/-- A driver whose buffer color tag is `Gray` (as after `as_gray2`). -/
def grayTagEx : Epd5in79Impl :=
  { Epd5in79Impl.new with state.color_in_buf := ColorInBuf.Gray }

/-- An awake driver (hardware reset recorded at clock 5). -/
def awakeEx : Epd5in79Impl :=
  { Epd5in79Impl.new with state.power_on := some 5 }

/-- A driver with master planes all-zero and slave planes all-ones, used to
exhibit which half the getters read in the overlap band. -/
def overlapCex : Epd5in79Impl :=
  { buffer0 := fun _ => 0
    buffer1 := fun _ => 255
    buffer2 := fun _ => 0
    buffer3 := fun _ => 255
    state := { power_on := none, color_in_buf := ColorInBuf.Binary, init_for := none } }

/-- An awake driver already initialized for partial mode, with the secondary
planes all-ones. -/
def partReadyCex : Epd5in79Impl :=
  { buffer0 := fun _ => 255
    buffer1 := fun _ => 255
    buffer2 := fun _ => 255
    buffer3 := fun _ => 255
    state := { power_on := some 0, color_in_buf := ColorInBuf.Binary,
               init_for := some DisplayMode.Part } }

/-- Claim C6: `wait_busy_timeout(poll_step, timeout)` returns `Ok` with zero
elapsed time when the busy line is inactive on the first check; when the busy
line never becomes inactive it returns a `TimeOutError` whose `timeout` field
equals the configured timeout and whose `elapsed` field is at least that
timeout. -/
theorem c6_wait_busy_timeout_spec (busyAt : Nat → Bool) (step timeout : Nat) :
    (busyAt 0 = false → wait_busy_timeout busyAt step timeout = Except.ok 0) ∧
    ((∀ t, busyAt t = true) →
      ∃ err, wait_busy_timeout busyAt step timeout = Except.error err ∧
        err.timeout = timeout ∧ timeout ≤ err.elapsed) := by
  constructor
  · intro h0
    rw [wait_busy_timeout, if_pos h0]
  · intro hb
    rw [wait_busy_timeout, if_neg (by simp [hb 0])]
    exact wbtLoop_all_busy busyAt hb _ timeout timeout 0 (by omega)

/-- Witness for C6 at concrete busy lines: an always-idle line yields `Ok 0`,
an always-busy line yields a timeout error with the configured bound. -/
theorem c6_witness :
    wait_busy_timeout (fun _ => false) 3 5 = Except.ok 0 ∧
    (∃ err, wait_busy_timeout (fun _ => true) 0 3 = Except.error err ∧
      err.timeout = 3 ∧ 3 ≤ err.elapsed) :=
  ⟨(c6_wait_busy_timeout_spec (fun _ => false) 3 5).1 rfl,
   (c6_wait_busy_timeout_spec (fun _ => true) 0 3).2 (fun _ => rfl)⟩

/-- Claim C7: for every out-of-bounds point (`x < 0`, `x ≥ 792`, `y < 0` or
`y ≥ 272`) both getters return `none` and both setters leave the driver — in
particular all four byte planes — completely unchanged. -/
theorem c7_out_of_bounds (e : Epd5in79Impl) (p : Point)
    (h : p.x < 0 ∨ 792 ≤ p.x ∨ p.y < 0 ∨ 272 ≤ p.y) :
    get_binary e p = none ∧ get_gray e p = none ∧
    (∀ c, set_binary e p c = e) ∧ (∀ g, set_gray e p g = e) := by
  have hps : ¬ is_point_in_screen p = true := by
    simp only [is_point_in_screen, Bool.and_eq_true, decide_eq_true_eq]
    omega
  refine ⟨?_, ?_, fun c => ?_, fun g => ?_⟩
  · rw [get_binary, if_neg hps]
  · rw [get_gray, if_neg hps]
  · rw [set_binary, if_neg hps]
  · rw [set_gray, if_neg hps]

/-- Witness for C7 at the out-of-bounds points (-1, 5) and (792, 5). -/
theorem c7_witness :
    get_binary Epd5in79Impl.new ⟨-1, 5⟩ = none ∧
    set_binary Epd5in79Impl.new ⟨792, 5⟩ BinaryColor.On = Epd5in79Impl.new :=
  ⟨(c7_out_of_bounds Epd5in79Impl.new ⟨-1, 5⟩ (by decide)).1,
   (c7_out_of_bounds Epd5in79Impl.new ⟨792, 5⟩ (by decide)).2.2.1 BinaryColor.On⟩

/-- Claim C8: the color remap is idempotent — when the buffer's color tag
already equals the target encoding, `mapping_to_binary` and `mapping_to_gray2`
return the driver unchanged (all four planes and the state record), for every
buffer content and every mapping function. -/
theorem c8_mapping_idempotent (e : Epd5in79Impl) (f : Gray2 → BinaryColor)
    (g : BinaryColor → Gray2) :
    (e.state.color_in_buf = ColorInBuf.Binary → mapping_to_binary f e = e) ∧
    (e.state.color_in_buf = ColorInBuf.Gray → mapping_to_gray2 g e = e) := by
  constructor
  · intro h
    rw [mapping_to_binary, if_pos h]
  · intro h
    rw [mapping_to_gray2, if_pos h]

/-- Witness for C8 on concrete binary- and gray-tagged drivers. -/
theorem c8_witness :
    mapping_to_binary (fun _ => BinaryColor.Off) Epd5in79Impl.new = Epd5in79Impl.new ∧
    mapping_to_gray2 (fun _ => Gray2.BLACK) grayTagEx = grayTagEx :=
  ⟨(c8_mapping_idempotent Epd5in79Impl.new (fun _ => BinaryColor.Off)
      (fun _ => Gray2.BLACK)).1 rfl,
   (c8_mapping_idempotent grayTagEx (fun _ => BinaryColor.Off)
      (fun _ => Gray2.BLACK)).2 rfl⟩

/-- Claim C9: `deep_sleep` is idempotent — a second consecutive call issues no
bus traffic and changes no state; when the panel is awake the first call
issues exactly the deep-sleep command 0x10 with payload 0x03 (then powers off
and deasserts reset), while an already-asleep panel gets no command at all;
`power_on_dur` is `none` after deep sleep and `some (now - i)` (a nonnegative
duration) while awake. -/
theorem c9_deep_sleep_idempotent (e : Epd5in79Impl) (now : Nat) :
    deep_sleep (deep_sleep e).1 = ((deep_sleep e).1, []) ∧
    (∀ i, e.state.power_on = some i →
      (deep_sleep e).2 =
        commandDataEv 0x10 [0x03] ++ [Event.setPower false, Event.setRst false]) ∧
    (e.state.power_on = none → (deep_sleep e).2 = []) ∧
    power_on_dur (deep_sleep e).1 now = none ∧
    (∀ i, e.state.power_on = some i → power_on_dur e now = some (now - i)) := by
  rcases e with ⟨b0, b1, b2, b3, po, cib, initf⟩
  rcases po with _ | j
  · exact ⟨rfl, fun i hi => Option.noConfusion hi, fun _ => rfl, rfl,
      fun i hi => Option.noConfusion hi⟩
  · refine ⟨rfl, fun i hi => rfl, fun hi => Option.noConfusion hi, rfl, fun i hi => ?_⟩
    injection hi with hj
    subst hj
    rfl

/-- Witness for C9 on a concrete awake driver. -/
theorem c9_witness :
    deep_sleep (deep_sleep awakeEx).1 = ((deep_sleep awakeEx).1, []) ∧
    power_on_dur awakeEx 7 = some 2 :=
  ⟨(c9_deep_sleep_idempotent awakeEx 7).1,
   (c9_deep_sleep_idempotent awakeEx 7).2.2.2.2 5 rfl⟩

/-- Claim C4: for every in-bounds point, `set_binary` followed by `get_binary`
returns the written color, and `set_gray` followed by `get_gray` returns the
written gray level for all four lumas; the 2-bit luma is stored per the
table — primary-plane bit set exactly for lumas 1 and 3, secondary-plane bit
set exactly for lumas 2 and 3 (luma 0 → (0,0), 1 → (1,0), 2 → (0,1),
3 → (1,1)). -/
theorem c4_set_get_roundtrip (e : Epd5in79Impl) (p : Point)
    (hp : is_point_in_screen p = true) :
    (∀ c : BinaryColor, get_binary (set_binary e p c) p = some c) ∧
    (∀ g : Gray2, get_gray (set_gray e p g) p = some g) ∧
    (∀ (g : Gray2) (o bw r : Nat), o < 8 →
      (set_gray_value g o bw r).1.testBit o =
          decide (g.luma.val = 1 ∨ g.luma.val = 3) ∧
      (set_gray_value g o bw r).2.testBit o =
          decide (g.luma.val = 2 ∨ g.luma.val = 3)) := by
  refine ⟨fun c => ?_, fun g => ?_, fun g o bw r ho => ?_⟩
  · rw [get_set_binary e p p c hp hp, if_pos rfl]
  · rw [get_set_gray e p p g hp hp, if_pos rfl]
  · rw [testBit_set_gray_value_fst g o bw r o ho, testBit_set_gray_value_snd g o bw r o ho,
      if_pos rfl, if_pos rfl]
    rcases g with ⟨⟨l, hl⟩⟩
    dsimp only
    interval_cases l <;> exact ⟨by decide, by decide⟩

/-- Witness for C4 at concrete points and colors, one per half. -/
theorem c4_witness :
    get_binary (set_binary Epd5in79Impl.new ⟨10, 3⟩ BinaryColor.On) ⟨10, 3⟩ =
      some BinaryColor.On ∧
    get_gray (set_gray Epd5in79Impl.new ⟨500, 100⟩ (Gray2.new 2)) ⟨500, 100⟩ =
      some (Gray2.new 2) :=
  ⟨(c4_set_get_roundtrip Epd5in79Impl.new ⟨10, 3⟩ (by decide)).1 BinaryColor.On,
   (c4_set_get_roundtrip Epd5in79Impl.new ⟨500, 100⟩ (by decide)).2.1 (Gray2.new 2)⟩

/-- Claim C10: pixel setters are frame-preserving — for in-bounds points
`p ≠ q`, `set_binary` at `p` leaves `get_binary` at `q` unchanged and leaves
the secondary planes (`buffer2`, `buffer3`) entirely untouched, and `set_gray`
at `p` leaves `get_gray` at `q` unchanged. -/
theorem c10_setters_frame (e : Epd5in79Impl) (p q : Point)
    (hp : is_point_in_screen p = true) (hq : is_point_in_screen q = true)
    (hne : q ≠ p) :
    (∀ c : BinaryColor,
      get_binary (set_binary e p c) q = get_binary e q ∧
      (set_binary e p c).buffer2 = e.buffer2 ∧
      (set_binary e p c).buffer3 = e.buffer3) ∧
    (∀ g : Gray2, get_gray (set_gray e p g) q = get_gray e q) := by
  refine ⟨fun c => ⟨?_, set_binary_buffer2 e p c, set_binary_buffer3 e p c⟩, fun g => ?_⟩
  · rw [get_set_binary e p q c hp hq, if_neg hne]
  · rw [get_set_gray e p q g hp hq, if_neg hne]

/-- Witness for C10 at concrete distinct points, including an overlap-band
pair sharing a byte. -/
theorem c10_witness :
    get_binary (set_binary Epd5in79Impl.new ⟨0, 0⟩ BinaryColor.Off) ⟨1, 0⟩ =
      get_binary Epd5in79Impl.new ⟨1, 0⟩ ∧
    get_gray (set_gray Epd5in79Impl.new ⟨395, 7⟩ Gray2.BLACK) ⟨394, 7⟩ =
      get_gray Epd5in79Impl.new ⟨394, 7⟩ :=
  ⟨((c10_setters_frame Epd5in79Impl.new ⟨0, 0⟩ ⟨1, 0⟩ (by decide) (by decide)
      (by decide)).1 BinaryColor.Off).1,
   (c10_setters_frame Epd5in79Impl.new ⟨395, 7⟩ ⟨394, 7⟩ (by decide) (by decide)
      (by decide)).2 Gray2.BLACK⟩

/-- Claim C2 counterexample: at (395, 0) — a column the claim places in the
overlap band — with the master planes all-zero and the slave planes all-ones,
`get_binary` returns `On` and `get_gray` returns luma 3, the slave half's
values, although the master half's primary plane stores the bit `Off` and the
master plane pair encodes luma 0.  So overlap reads come from the slave
planes (buffer1, buffer3), not the master's (buffer0, buffer2). -/
theorem c2_counterexample :
    get_binary overlapCex ⟨395, 0⟩ = some BinaryColor.On ∧
    get_binary_from_value (7 - (395 : Nat) % 8) (overlapCex.buffer0 (395 / 8)) =
      BinaryColor.Off ∧
    get_gray overlapCex ⟨395, 0⟩ = some (Gray2.new 3) ∧
    get_gray_from_values (7 - (395 : Nat) % 8) (overlapCex.buffer0 (395 / 8))
      (overlapCex.buffer2 (395 / 8)) = Gray2.new 0 := by
  refine ⟨?_, ?_, ?_, ?_⟩ <;> decide

/-- Claim C2 (amended): the duplicated overlap band is columns 392–399 (not
391–399), and for every framebuffer state and in-bounds point there both
`get_binary` and `get_gray` return the value stored in the *slave* half's
planes (`buffer1`, and the pair `buffer1`/`buffer3`), not the master's. -/
theorem c2_overlap_reads_slave (e : Epd5in79Impl) (p : Point)
    (hx1 : 392 ≤ p.x) (hx2 : p.x ≤ 399) (hy1 : 0 ≤ p.y) (hy2 : p.y < 272) :
    get_binary e p =
      some (get_binary_from_value (7 - (p.x.toNat - 49 * 8) % 8)
        (e.buffer1 (50 * p.y.toNat + (p.x.toNat - 49 * 8) / 8))) ∧
    get_gray e p =
      some (get_gray_from_values (7 - (p.x.toNat - 49 * 8) % 8)
        (e.buffer1 (50 * p.y.toNat + (p.x.toNat - 49 * 8) / 8))
        (e.buffer3 (50 * p.y.toNat + (p.x.toNat - 49 * 8) / 8))) := by
  have hp : is_point_in_screen p = true := by
    simp only [is_point_in_screen, Bool.and_eq_true, decide_eq_true_eq]
    omega
  exact ⟨get_binary_slave e p hp (by omega), get_gray_slave e p hp (by omega)⟩

/-- Witness for the amended C2 at the concrete overlap point (395, 0). -/
theorem c2_witness :
    get_binary overlapCex ⟨395, 0⟩ =
      some (get_binary_from_value (7 - ((395 : Int).toNat - 49 * 8) % 8)
        (overlapCex.buffer1 (50 * (0 : Int).toNat + ((395 : Int).toNat - 49 * 8) / 8))) :=
  (c2_overlap_reads_slave overlapCex ⟨395, 0⟩ (by decide) (by decide) (by decide)
    (by decide)).1

lemma countCmd_append (c : Nat) (t1 t2 : List Event) :
    countCmd c (t1 ++ t2) = countCmd c t1 + countCmd c t2 := by
  induction t1 with
  | nil => simp [countCmd]
  | cons ev t ih => cases ev <;> simp [countCmd, ih] <;> omega

lemma planesSent_append (c : Nat) (t1 t2 : List Event) :
    planesSent c (t1 ++ t2) = planesSent c t1 ++ planesSent c t2 := by
  induction t1 with
  | nil => rfl
  | cons ev t ih =>
    cases ev <;> simp [planesSent, ih]
    split <;> simp [ih]

lemma countCmd_12_power_on (now : Nat) (e : Epd5in79Impl) :
    countCmd 0x12 (power_on now e).2 = 1 := by
  rw [power_on]
  split <;> rfl

lemma planesSent_power_on (c now : Nat) (e : Epd5in79Impl) :
    planesSent c (power_on now e).2 = [] := by
  rw [power_on]
  split <;> rfl

lemma countCmd_12_set_address : countCmd 0x12 set_addressEv = 0 := rfl

lemma planesSent_set_address (c : Nat) : planesSent c set_addressEv = [] := rfl

lemma countCmd_12_load_lut : countCmd 0x12 load_lutEv = 0 := rfl

lemma planesSent_load_lut (c : Nat) : planesSent c load_lutEv = [] := rfl

lemma countCmd_12_send_bufs_all (e : Epd5in79Impl) :
    countCmd 0x12 (send_bufs_all e) = 0 := rfl

lemma planesSent_26_send_bufs_all (e : Epd5in79Impl) :
    planesSent 0x26 (send_bufs_all e) = [e.buffer2] := rfl

lemma planesSent_a6_send_bufs_all (e : Epd5in79Impl) :
    planesSent 0xa6 (send_bufs_all e) = [e.buffer3] := rfl

lemma countCmd_12_send_part_ref (e : Epd5in79Impl) :
    countCmd 0x12 (send_bufs e [0x26, 0xa6]) = 0 := rfl

lemma countCmd_12_send_part_new (e : Epd5in79Impl) :
    countCmd 0x12 (send_bufs e [0x24, 0xa4]) = 0 := rfl

attribute [simp] countCmd_12_power_on planesSent_power_on countCmd_12_set_address
attribute [simp] planesSent_set_address countCmd_12_load_lut planesSent_load_lut
attribute [simp] countCmd_12_send_bufs_all planesSent_26_send_bufs_all
attribute [simp] planesSent_a6_send_bufs_all countCmd_12_send_part_ref
attribute [simp] countCmd_12_send_part_new

attribute [simp] countCmd_append planesSent_append countCmd planesSent
attribute [simp] commandDataEv send_buf send_bufs send_bufs_all sw_resetEv set_addressEv
attribute [simp] load_lutEv hw_reset power_on wait_busy
attribute [simp] Epd5in79State.check_deepsleep Epd5in79State.is_deepsleep
attribute [simp] Epd5in79State.is_ready_for
attribute [simp] display_binary_full ensure_inited_binary_full init_binary_full
attribute [simp] display_binary_fast ensure_inited_binary_fast init_binary_fast
attribute [simp] display_binary_part ensure_inited_binary_part init_binary_part
attribute [simp] display_gray2 ensure_inited_gray2 init_gray2

/-- Claim C1 counterexample: from the freshly constructed, deep-sleeping
driver, `display_binary_full` does not fail with the deep-sleep error — it
returns `Ok` and the panel ends up awake (`power_on` recorded), i.e. the
operation silently woke and re-initialized the panel. -/
theorem c1_counterexample :
    ∃ r, display_binary_full 0 Epd5in79Impl.new = Except.ok r ∧
      r.1.state.power_on = some 0 :=
  ⟨_, rfl, rfl⟩

/-- Claim C1 (amended): while the panel is asleep, only `wait_busy` fails
with the deep-sleep guard error; each display operation
(`display_binary_full`, `display_binary_fast`, `display_binary_partial`,
`display_gray2`) instead silently powers the panel on (recording the new
power-on instant via a hardware reset) and re-runs its init sequence,
returning `Ok`. -/
theorem c1_display_wakes_when_asleep (e : Epd5in79Impl) (now : Nat)
    (h : e.state.power_on = none) :
    wait_busy e = Except.error EpdError.deepSleep ∧
    (∃ r, display_binary_full now e = Except.ok r ∧ r.1.state.power_on = some now) ∧
    (∃ r, display_binary_fast now e = Except.ok r ∧ r.1.state.power_on = some now) ∧
    (∃ r, display_binary_part now e = Except.ok r ∧ r.1.state.power_on = some now) ∧
    (∃ r, display_gray2 now e = Except.ok r ∧ r.1.state.power_on = some now) := by
  rcases e with ⟨b0, b1, b2, b3, po, cib, initf⟩
  cases h
  exact ⟨rfl, ⟨_, rfl, rfl⟩, ⟨_, rfl, rfl⟩, ⟨_, rfl, rfl⟩, ⟨_, rfl, rfl⟩⟩

/-- Witness for the amended C1 on the freshly constructed driver. -/
theorem c1_witness :
    wait_busy Epd5in79Impl.new = Except.error EpdError.deepSleep ∧
    (∃ r, display_binary_fast 3 Epd5in79Impl.new = Except.ok r ∧
      r.1.state.power_on = some 3) :=
  ⟨(c1_display_wakes_when_asleep Epd5in79Impl.new 3 rfl).1,
   (c1_display_wakes_when_asleep Epd5in79Impl.new 3 rfl).2.2.1⟩

/-- Claim C3 counterexample: `display_binary_partial` (here
`display_binary_part`), called on an awake driver already initialized for
partial mode whose secondary planes are all-ones, pushes both primary planes
to the hardware while the secondary planes still hold 255 — they are not
cleared to zero before the transfer. -/
theorem c3_counterexample :
    ∃ r, display_binary_part 0 partReadyCex = Except.ok r ∧
      (planesSent 0x24 r.2).length = 1 ∧ (planesSent 0xa4 r.2).length = 1 ∧
      r.1.buffer2 0 = 255 ∧ r.1.buffer3 0 = 255 :=
  ⟨_, rfl, rfl, rfl, rfl, rfl⟩

set_option maxHeartbeats 1600000 in
/-- Claim C3 (amended): in `display_binary_full` and `display_binary_fast`
the secondary planes (`buffer2`, `buffer3`) are cleared to all-zero bytes
before any plane data is transferred — every 0x26/0xa6 plane payload in the
trace is the zero plane and the final secondary planes are zero.
`display_binary_partial` does not clear them: its init instead copies the
primary planes into them as the previous-image reference. -/
theorem c3_full_fast_clear_secondary (now : Nat) (e : Epd5in79Impl) :
    (∃ r, display_binary_full now e = Except.ok r ∧
      r.1.buffer2 = (fun _ => 0) ∧ r.1.buffer3 = (fun _ => 0) ∧
      planesSent 0x26 r.2 = [fun _ => 0] ∧ planesSent 0xa6 r.2 = [fun _ => 0]) ∧
    (∃ r, display_binary_fast now e = Except.ok r ∧
      r.1.buffer2 = (fun _ => 0) ∧ r.1.buffer3 = (fun _ => 0) ∧
      planesSent 0x26 r.2 = [fun _ => 0] ∧ planesSent 0xa6 r.2 = [fun _ => 0]) := by
  rcases e with ⟨b0, b1, b2, b3, po, cib, initf⟩
  rcases po with _ | i
  · refine ⟨⟨_, rfl, rfl, rfl, ?_, ?_⟩, ⟨_, rfl, rfl, rfl, ?_, ?_⟩⟩ <;> simp
  · rcases initf with _ | mode
    · refine ⟨⟨_, rfl, rfl, rfl, ?_, ?_⟩, ⟨_, rfl, rfl, rfl, ?_, ?_⟩⟩ <;> simp
    · cases mode <;>
        refine ⟨⟨_, rfl, rfl, rfl, ?_, ?_⟩, ⟨_, rfl, rfl, rfl, ?_, ?_⟩⟩ <;> simp

set_option maxHeartbeats 1600000 in
/-- Claim C5: calling the same display operation twice in the same mode with
no intervening deep sleep and no mode or color switch runs that mode's init
sequence — containing exactly one software reset (command 0x12) — exactly
once: starting from any state not ready for the mode, the first call's trace
contains the software reset once and the second call's trace contains none,
because after the first call `init_for` equals the requested mode and the
panel is awake. -/
theorem c5_init_once (now1 now2 : Nat) (e : Epd5in79Impl) :
    (e.state.is_ready_for DisplayMode.Full = false →
      ∃ r1 r2, display_binary_full now1 e = Except.ok r1 ∧
        display_binary_full now2 r1.1 = Except.ok r2 ∧
        countCmd 0x12 r1.2 = 1 ∧ countCmd 0x12 r2.2 = 0 ∧
        r1.1.state.is_ready_for DisplayMode.Full = true) ∧
    (e.state.is_ready_for DisplayMode.Fast = false →
      ∃ r1 r2, display_binary_fast now1 e = Except.ok r1 ∧
        display_binary_fast now2 r1.1 = Except.ok r2 ∧
        countCmd 0x12 r1.2 = 1 ∧ countCmd 0x12 r2.2 = 0 ∧
        r1.1.state.is_ready_for DisplayMode.Fast = true) ∧
    (e.state.is_ready_for DisplayMode.Part = false →
      ∃ r1 r2, display_binary_part now1 e = Except.ok r1 ∧
        display_binary_part now2 r1.1 = Except.ok r2 ∧
        countCmd 0x12 r1.2 = 1 ∧ countCmd 0x12 r2.2 = 0 ∧
        r1.1.state.is_ready_for DisplayMode.Part = true) ∧
    (e.state.is_ready_for DisplayMode.Gray2M = false →
      ∃ r1 r2, display_gray2 now1 e = Except.ok r1 ∧
        display_gray2 now2 r1.1 = Except.ok r2 ∧
        countCmd 0x12 r1.2 = 1 ∧ countCmd 0x12 r2.2 = 0 ∧
        r1.1.state.is_ready_for DisplayMode.Gray2M = true) := by
  rcases e with ⟨b0, b1, b2, b3, po, cib, initf⟩
  refine ⟨?_, ?_, ?_, ?_⟩ <;> intro h
  · rcases po with _ | i
    · refine ⟨_, _, rfl, rfl, ?_, ?_, rfl⟩ <;> simp
    · rcases initf with _ | mode
      · refine ⟨_, _, rfl, rfl, ?_, ?_, rfl⟩ <;> simp
      · cases mode
        · exact Bool.noConfusion h
        · refine ⟨_, _, rfl, rfl, ?_, ?_, rfl⟩ <;> simp
        · refine ⟨_, _, rfl, rfl, ?_, ?_, rfl⟩ <;> simp
        · refine ⟨_, _, rfl, rfl, ?_, ?_, rfl⟩ <;> simp
  · rcases po with _ | i
    · refine ⟨_, _, rfl, rfl, ?_, ?_, rfl⟩ <;> simp
    · rcases initf with _ | mode
      · refine ⟨_, _, rfl, rfl, ?_, ?_, rfl⟩ <;> simp
      · cases mode
        · refine ⟨_, _, rfl, rfl, ?_, ?_, rfl⟩ <;> simp
        · exact Bool.noConfusion h
        · refine ⟨_, _, rfl, rfl, ?_, ?_, rfl⟩ <;> simp
        · refine ⟨_, _, rfl, rfl, ?_, ?_, rfl⟩ <;> simp
  · rcases po with _ | i
    · refine ⟨_, _, rfl, rfl, ?_, ?_, rfl⟩ <;> simp
    · rcases initf with _ | mode
      · refine ⟨_, _, rfl, rfl, ?_, ?_, rfl⟩ <;> simp
      · cases mode
        · refine ⟨_, _, rfl, rfl, ?_, ?_, rfl⟩ <;> simp
        · refine ⟨_, _, rfl, rfl, ?_, ?_, rfl⟩ <;> simp
        · exact Bool.noConfusion h
        · refine ⟨_, _, rfl, rfl, ?_, ?_, rfl⟩ <;> simp
  · rcases po with _ | i
    · refine ⟨_, _, rfl, rfl, ?_, ?_, rfl⟩ <;> simp
    · rcases initf with _ | mode
      · refine ⟨_, _, rfl, rfl, ?_, ?_, rfl⟩ <;> simp
      · cases mode
        · refine ⟨_, _, rfl, rfl, ?_, ?_, rfl⟩ <;> simp
        · refine ⟨_, _, rfl, rfl, ?_, ?_, rfl⟩ <;> simp
        · refine ⟨_, _, rfl, rfl, ?_, ?_, rfl⟩ <;> simp
        · exact Bool.noConfusion h

set_option maxHeartbeats 800000 in
/-- Witness for C5: two full-mode refreshes from the fresh driver issue the
software reset exactly once, in the first call. -/
theorem c5_witness :
    ∃ r1 r2, display_binary_full 0 Epd5in79Impl.new = Except.ok r1 ∧
      display_binary_full 1 r1.1 = Except.ok r2 ∧
      countCmd 0x12 r1.2 = 1 ∧ countCmd 0x12 r2.2 = 0 ∧
      r1.1.state.is_ready_for DisplayMode.Full = true :=
  (c5_init_once 0 1 Epd5in79Impl.new).1 rfl
